import Mathlib

/-!
Verification of the WebHL_SQCT authentication/bootstrap core.

The data model (users, departments), the startup seeding routine and the
page routes are embedded from `src/app.py`.  The password hasher, token
issuer/verifier, identity resolvers and role authorizer live in modules of
the repository that are not part of the visible source tree; those are
modelled from the specification and marked as such in their doc comments.
-/

namespace WebHL

/-- User roles (`models.UserRole`); the visible code uses `ADMIN`, the spec
requires at least `ADMIN` and a regular `USER`. -/
inductive UserRole where
  | ADMIN
  | USER
deriving DecidableEq, Repr

/-- A user record (`models.User`): username, email, full name, stored
password hash, role. -/
structure User where
  username : String
  email : String
  full_name : String
  hashed_password : String
  role : UserRole
deriving DecidableEq, Repr

/-- A department record (`models.Department`): code and display name. -/
structure Department where
  code : String
  name : String
deriving DecidableEq, Repr

/-- The database state visible to the code: the user table and the
department table. -/
structure DB where
  users : List User
  departments : List Department
deriving DecidableEq, Repr

/-- Modelled from the spec: the Password Hasher (`app.auth.get_password_hash`,
not under the visible source tree).  §4.1: `hash(plaintext)` produces a
salted, non-reversible digest whose format self-describes its algorithm;
modelled as a tagged injective encoding. -/
def get_password_hash (password : String) : String :=
  "$bcrypt$" ++ password

/-- Modelled from the spec: the Password Hasher verification
(`app.auth.verify_password`, not under the visible source tree).  §4.1:
`verify(plaintext, digest)` recomputes and compares, returns a boolean and
never throws. -/
def verify_password (plaintext hashed : String) : Bool :=
  hashed == get_password_hash plaintext

/-- The 14 default departments inserted by `startup_event` when the
department table is empty (`src/app.py` lines 141-156). -/
def departments_data : List Department :=
  [ { code := "K1", name := "Khoa Triết học Mác - Lênin" },
    { code := "K2", name := "Khoa Lịch sử Đảng Cộng sản Việt Nam" },
    { code := "K3", name := "Khoa Công tác Đảng, Công tác Chính trị" },
    { code := "K4", name := "Khoa Chiến thuật" },
    { code := "K5", name := "Khoa Văn hóa - Ngoại ngữ" },
    { code := "K6", name := "Khoa Kinh tế chính trị Mác - Lênin" },
    { code := "K7", name := "Khoa Chủ nghĩa xã hội khoa học" },
    { code := "K8", name := "Khoa Tâm lý học quân sự" },
    { code := "K9", name := "Khoa Bắn súng" },
    { code := "K10", name := "Khoa Quân sự chung" },
    { code := "K11", name := "Khoa Giáo dục thể chất" },
    { code := "K12", name := "Khoa Sư phạm quân sự" },
    { code := "K13", name := "Khoa Tư tưởng Hồ Chí Minh" },
    { code := "K14", name := "Khoa Nhà nước & Pháp luật" } ]

/-- The administrative account inserted by `startup_event` when no user
named "admin" exists (`src/app.py` lines 171-177). -/
def admin_account : User :=
  { username := "admin"
    email := "admin@sqct.edu.vn"
    full_name := "Quản trị viên"
    hashed_password := get_password_hash "admin123"
    role := UserRole.ADMIN }

/-- The startup seeding routine (`src/app.py` lines 132-182): if the
department table is empty, insert the 14 default departments; then, if no
user with username "admin" exists, insert the administrative account. -/
def startup_event (db : DB) : DB :=
  let existing_depts := db.departments.length
  let db1 :=
    if existing_depts == 0 then
      { db with departments := db.departments ++ departments_data }
    else db
  let admin_user := db1.users.find? (fun u => u.username == "admin")
  match admin_user with
  | some _ => db1
  | none => { db1 with users := db1.users ++ [admin_account] }

/-- The empty database: no users, no departments. -/
def emptyDB : DB := { users := [], departments := [] }

/-- A database holding a single non-admin user, used to exercise the
admin-seeding check on a nonempty store. -/
def bobDB : DB :=
  { users := [ { username := "bob"
                 email := "bob@sqct.edu.vn"
                 full_name := "Bob"
                 hashed_password := get_password_hash "bobpw"
                 role := UserRole.USER } ]
    departments := departments_data }

/-- A database already holding the admin account. -/
def adminOnlyDB : DB :=
  { users := [admin_account], departments := departments_data }

/-- Modelled from the spec: a session token (§3, §4.2; the issuer lives in
`app.auth`, not under the visible source tree).  A signed, self-contained
credential encoding the subject identifier and an expiry instant. -/
structure Token where
  subject : String
  expiry : Nat
  sig : String
deriving DecidableEq, Repr

/-- Modelled from the spec: the signature over subject and expiry with the
process-wide signing key (§4.2). -/
def sign (key subject : String) (expiry : Nat) : String :=
  key ++ "." ++ subject ++ "." ++ toString expiry

/-- Modelled from the spec: `issue(user_identifier)` (§4.2) produces a
signed token embedding the subject and an expiry set to a fixed TTL from
issuance time. -/
def issue (key subject : String) (now ttl : Nat) : Token :=
  { subject := subject, expiry := now + ttl, sig := sign key subject (now + ttl) }

/-- Modelled from the spec: `verify(token)` (§4.2) yields the subject, or
fails (`none`, standing for TokenInvalid) on signature mismatch or expiry
in the past. -/
def verify_token (key : String) (now : Nat) (t : Token) : Option String :=
  if t.sig = sign key t.subject t.expiry ∧ now ≤ t.expiry then some t.subject
  else none

/-- Modelled from the spec: the token as transported in a request (§4.3
steps 1-2; §6): it may be absent, syntactically malformed, or parsed. -/
inductive TokenField where
  | absent
  | malformed
  | parsed (t : Token)
deriving DecidableEq, Repr

/-- A request as the identity resolvers see it: only its token channel. -/
structure Request where
  auth : TokenField
deriving DecidableEq, Repr

/-- The error taxonomy of the auth core (§7). -/
inductive AuthError where
  | Unauthenticated
  | Forbidden
deriving DecidableEq, Repr

/-- Modelled from the spec: the Optional Identity Resolver
(`app.dependencies.get_optional_user`, not under the visible source tree).
§4.3: absent or invalid token yields the anonymous sentinel (`none`); a
valid subject whose user no longer exists also yields `none` (fail
closed); otherwise the resolved user. -/
def get_optional_user (db : DB) (key : String) (now : Nat)
    (req : Request) : Option User :=
  match req.auth with
  | TokenField.absent => none
  | TokenField.malformed => none
  | TokenField.parsed t =>
    match verify_token key now t with
    | none => none
    | some sub => db.users.find? (fun u => u.username == sub)

/-- Modelled from the spec: the Required Identity Resolver
(`app.dependencies.get_current_user`, not under the visible source tree).
§4.3: absent, malformed or invalid token, or a subject with no matching
user, fails with Unauthenticated; otherwise yields the resolved user. -/
def get_current_user (db : DB) (key : String) (now : Nat)
    (req : Request) : Except AuthError User :=
  match req.auth with
  | TokenField.absent => Except.error AuthError.Unauthenticated
  | TokenField.malformed => Except.error AuthError.Unauthenticated
  | TokenField.parsed t =>
    match verify_token key now t with
    | none => Except.error AuthError.Unauthenticated
    | some sub =>
      match db.users.find? (fun u => u.username == sub) with
      | none => Except.error AuthError.Unauthenticated
      | some u => Except.ok u

/-- Modelled from the spec: the Role Authorizer (§4.4, not under the
visible source tree): wraps the Required Identity Resolver and re-checks
the resolved user role; on mismatch fails with Forbidden. -/
def require_role (required : UserRole) (db : DB) (key : String) (now : Nat)
    (req : Request) : Except AuthError User :=
  match get_current_user db key now req with
  | Except.error e => Except.error e
  | Except.ok u =>
    if u.role = required then Except.ok u else Except.error AuthError.Forbidden

/-- Modelled from the spec: login failure (§6, §7): wrong identifier and
wrong password are deliberately indistinguishable. -/
inductive LoginError where
  | InvalidCredentials
deriving DecidableEq, Repr

/-- Modelled from the spec: the login endpoint (`app.routes.auth`, not
under the visible source tree).  §6: accepts identifier and plaintext
password; on success returns a session token; on failure an
authentication-failure with no user/password distinction. -/
def login (db : DB) (identifier password : String) (key : String)
    (now ttl : Nat) : Except LoginError Token :=
  match db.users.find? (fun u => u.username == identifier) with
  | none => Except.error LoginError.InvalidCredentials
  | some u =>
    if verify_password password u.hashed_password then
      Except.ok (issue key u.username now ttl)
    else Except.error LoginError.InvalidCredentials

/-- The responses the page routes of `src/app.py` can produce: an HTTP
redirect, a rendered template (with the identity and the department list
passed to the template context), or a bare status (API error surface). -/
inductive Response where
  | redirect (url : String) (status : Nat)
  | template (name : String) (user : Option User) (departments : List Department)
  | status (code : Nat)
deriving DecidableEq, Repr

/-- Modelled from the spec: how auth-core failures surface on API routes
(§6, §7): Unauthenticated as a 401-equivalent, Forbidden as a
403-equivalent, never a redirect. -/
def api_error_response : AuthError → Response
  | AuthError.Unauthenticated => Response.status 401
  | AuthError.Forbidden => Response.status 403

/-- Route `/` (`src/app.py` lines 30-41): anonymous requests are
redirected to /login, authenticated ones to /dashboard.  The route
declares a database dependency but never uses it. -/
def index (_db : DB) (user : Option User) : Response :=
  match user with
  | none => Response.redirect "/login" 302
  | some _ => Response.redirect "/dashboard" 302

/-- Route `/materials` (`src/app.py` lines 43-60): anonymous requests are
redirected to /login; otherwise the department list is queried and
`index.html` rendered. -/
def materials_page (db : DB) (user : Option User) : Response :=
  match user with
  | none => Response.redirect "/login" 302
  | some u => Response.template "index.html" (some u) db.departments

/-- Route `/login` (`src/app.py` lines 62-66): authenticated users are
redirected to /dashboard; otherwise `login.html` is rendered. -/
def login_page (user : Option User) : Response :=
  match user with
  | some _ => Response.redirect "/dashboard" 302
  | none => Response.template "login.html" none []

/-- Route `/register` (`src/app.py` lines 68-72): authenticated users are
redirected to /dashboard; otherwise `register.html` is rendered. -/
def register_page (user : Option User) : Response :=
  match user with
  | some _ => Response.redirect "/dashboard" 302
  | none => Response.template "register.html" none []

/-- Route `/detail` (`src/app.py` lines 74-91): anonymous requests are
redirected to /login; otherwise `detail.html` is rendered with the
department list. -/
def detail_page (db : DB) (user : Option User) : Response :=
  match user with
  | none => Response.redirect "/login" 302
  | some u => Response.template "detail.html" (some u) db.departments

/-- Route `/dashboard` (`src/app.py` lines 93-110): anonymous requests are
redirected to /login; otherwise `dashboard.html` is rendered with the
department list. -/
def dashboard_page (db : DB) (user : Option User) : Response :=
  match user with
  | none => Response.redirect "/login" 302
  | some u => Response.template "dashboard.html" (some u) db.departments

/-- Route `/statistics` (`src/app.py` lines 112-129): anonymous requests
are redirected to /login; otherwise `statistics.html` is rendered with the
department list. -/
def statistics_page (db : DB) (user : Option User) : Response :=
  match user with
  | none => Response.redirect "/login" 302
  | some u => Response.template "statistics.html" (some u) db.departments

/-- A request is anonymous-or-invalid when it carries no token, a
malformed token, or a parsed token the verifier rejects (§4.3 steps 2-3). -/
def no_or_invalid_token (key : String) (now : Nat) (req : Request) : Prop :=
  match req.auth with
  | TokenField.absent => True
  | TokenField.malformed => True
  | TokenField.parsed t => verify_token key now t = none

/-- A regular (non-admin) user used to exercise the role authorizer. -/
def carol : User :=
  { username := "carol"
    email := "carol@sqct.edu.vn"
    full_name := "Carol"
    hashed_password := get_password_hash "carolpw"
    role := UserRole.USER }

/-- A store holding only the regular user `carol`. -/
def carolDB : DB := { users := [carol], departments := [] }

/-- A request carrying a token validly signed (with key "secret") for
`carol`, expiring at instant 30. -/
def carolReq : Request :=
  { auth := TokenField.parsed
      { subject := "carol", expiry := 30, sig := sign "secret" "carol" 30 } }

/-- Helper: the department-seeding step never touches the user table; the
user table after startup is unchanged when a user named "admin" exists and
gains exactly the admin account otherwise. -/
theorem startup_users_eq (db : DB) :
    (startup_event db).users =
      match db.users.find? (fun u => u.username == "admin") with
      | some _ => db.users
      | none => db.users ++ [admin_account] := by
  unfold startup_event
  cases hd : (db.departments.length == 0) <;>
    cases hf : db.users.find? (fun u => u.username == "admin") <;>
      simp [hd, hf]

/-- Helper: the admin-seeding step never touches the department table, and
the department table after startup is the seed data when it started empty,
unchanged otherwise. -/
theorem startup_departments_eq (db : DB) :
    (startup_event db).departments =
      if db.departments.length == 0 then departments_data
      else db.departments := by
  unfold startup_event
  cases hd : (db.departments.length == 0)
  · cases hf : db.users.find? (fun u => u.username == "admin") <;> simp [hd, hf]
  · have hnil : db.departments = [] :=
      List.eq_nil_of_length_eq_zero (by simpa using hd)
    cases hf : db.users.find? (fun u => u.username == "admin") <;>
      simp [hd, hf, hnil]

/-- C1 counterexample: a store with one user (named "bob", not "admin") —
contrary to the claim, startup still creates the admin account: the user
table grows from one row to two. -/
theorem C1_counterexample :
    bobDB.users.length = 1 ∧
      (startup_event bobDB).users = bobDB.users ++ [admin_account] :=
  ⟨rfl, rfl⟩

/-- C1 (amended): the administrative account is created if and only if no
user with username "admin" exists: when one exists the user table is
unchanged, otherwise exactly the admin account is appended — regardless of
how many other users the store holds. -/
theorem C1_admin_seed_iff_no_admin_user (db : DB) :
    (startup_event db).users =
      if (db.users.find? (fun u => u.username == "admin")).isSome then
        db.users
      else db.users ++ [admin_account] := by
  rw [startup_users_eq]
  cases hf : db.users.find? (fun u => u.username == "admin") <;> simp [hf]

/-- C1 witness: the amended statement evaluated on the store that already
holds the admin account. -/
theorem C1_admin_seed_iff_no_admin_user_witness :
    (startup_event adminOnlyDB).users =
      if (adminOnlyDB.users.find? (fun u => u.username == "admin")).isSome then
        adminOnlyDB.users
      else adminOnlyDB.users ++ [admin_account] :=
  C1_admin_seed_iff_no_admin_user adminOnlyDB

/-- C2: running the startup seeding twice against the empty store leaves
exactly one admin account, and the second run changes nothing at all. -/
theorem C2_bootstrap_idempotent :
    ((startup_event (startup_event emptyDB)).users.filter
        (fun u => u.username == "admin")).length = 1 ∧
      startup_event (startup_event emptyDB) = startup_event emptyDB :=
  ⟨rfl, rfl⟩

/-- C3: each of the five guarded page routes answers an anonymous request
with a 302 redirect to /login; the response is a redirect (not a template)
and is the same for every database state, so the department query and the
render never contribute. -/
theorem C3_anonymous_redirects_to_login (db : DB) :
    index db none = Response.redirect "/login" 302 ∧
      materials_page db none = Response.redirect "/login" 302 ∧
      detail_page db none = Response.redirect "/login" 302 ∧
      dashboard_page db none = Response.redirect "/login" 302 ∧
      statistics_page db none = Response.redirect "/login" 302 :=
  ⟨rfl, rfl, rfl, rfl, rfl⟩

/-- C3 witness: the five redirects evaluated on the empty database. -/
theorem C3_anonymous_redirects_to_login_witness :
    index emptyDB none = Response.redirect "/login" 302 ∧
      materials_page emptyDB none = Response.redirect "/login" 302 ∧
      detail_page emptyDB none = Response.redirect "/login" 302 ∧
      dashboard_page emptyDB none = Response.redirect "/login" 302 ∧
      statistics_page emptyDB none = Response.redirect "/login" 302 :=
  C3_anonymous_redirects_to_login emptyDB

/-- C4: department seeding happens if and only if the department table is
empty — then exactly the 14 seed departments with distinct codes K1..K14
appear, otherwise the table is unchanged. -/
theorem C4_department_seed_iff_empty (db : DB) :
    ((startup_event db).departments =
        if db.departments.length == 0 then departments_data
        else db.departments) ∧
      departments_data.length = 14 ∧
      departments_data.map Department.code =
        ["K1", "K2", "K3", "K4", "K5", "K6", "K7",
         "K8", "K9", "K10", "K11", "K12", "K13", "K14"] ∧
      (departments_data.map Department.code).Nodup :=
  ⟨startup_departments_eq db, rfl, rfl, by decide⟩

/-- C4 witness: the seeding statement evaluated on the empty database. -/
theorem C4_department_seed_iff_empty_witness :
    ((startup_event emptyDB).departments =
        if emptyDB.departments.length == 0 then departments_data
        else emptyDB.departments) ∧
      departments_data.length = 14 ∧
      departments_data.map Department.code =
        ["K1", "K2", "K3", "K4", "K5", "K6", "K7",
         "K8", "K9", "K10", "K11", "K12", "K13", "K14"] ∧
      (departments_data.map Department.code).Nodup :=
  C4_department_seed_iff_empty emptyDB

/-- C5: after a fresh bootstrap the store holds exactly the admin account:
username "admin", role ADMIN, stored hash equal to the hash of "admin123"
and not the plaintext; and login with admin/admin123 returns a token. -/
theorem C5_admin_account_and_login :
    (startup_event emptyDB).users = [admin_account] ∧
      admin_account.username = "admin" ∧
      admin_account.role = UserRole.ADMIN ∧
      admin_account.hashed_password = get_password_hash "admin123" ∧
      admin_account.hashed_password ≠ "admin123" ∧
      login (startup_event emptyDB) "admin" "admin123" "secret" 0 30 =
        Except.ok (issue "secret" "admin" 0 30) :=
  ⟨rfl, rfl, rfl, rfl, by decide, rfl⟩

/-- C6: every user record that startup adds to the store (for any starting
state, the only such record is the bootstrap admin) carries a password
hash that is neither empty nor the plaintext "admin123" that produced it. -/
theorem C6_created_user_hash_invariant (db : DB) (u : User)
    (h1 : u ∈ (startup_event db).users) (h2 : u ∉ db.users) :
    u.hashed_password ≠ "" ∧ u.hashed_password ≠ "admin123" := by
  have hu := startup_users_eq db
  cases hf : db.users.find? (fun v => v.username == "admin") with
  | some v =>
    rw [hf] at hu
    rw [hu] at h1
    exact absurd h1 h2
  | none =>
    rw [hf] at hu
    rw [hu] at h1
    rcases List.mem_append.mp h1 with h | h
    · exact absurd h h2
    · have he : u = admin_account := List.mem_singleton.mp h
      subst he
      exact ⟨by decide, by decide⟩

/-- C6 witness: the invariant evaluated at the admin account created by a
bootstrap of the empty store. -/
theorem C6_created_user_hash_invariant_witness :
    admin_account.hashed_password ≠ "" ∧
      admin_account.hashed_password ≠ "admin123" :=
  C6_created_user_hash_invariant emptyDB admin_account (by decide) (by decide)

/-- C7: the Optional Identity Resolver is a total function, and on every
request with no token or an invalid token it yields the anonymous sentinel
`none`; the route then proceeds with that value (the login page renders
instead of failing). -/
theorem C7_optional_resolver_anonymous (db : DB) (key : String) (now : Nat)
    (req : Request) (h : no_or_invalid_token key now req) :
    get_optional_user db key now req = none ∧
      login_page (get_optional_user db key now req) =
        Response.template "login.html" none [] := by
  obtain ⟨auth⟩ := req
  cases auth with
  | absent => exact ⟨rfl, rfl⟩
  | malformed => exact ⟨rfl, rfl⟩
  | parsed t =>
    have hv : verify_token key now t = none := h
    have hnone : get_optional_user db key now { auth := TokenField.parsed t } = none := by
      simp [get_optional_user, hv]
    exact ⟨hnone, by rw [hnone]; rfl⟩

/-- C7 witness: the resolver evaluated on a token-less request against the
empty store. -/
theorem C7_optional_resolver_anonymous_witness :
    get_optional_user emptyDB "secret" 0 { auth := TokenField.absent } = none ∧
      login_page (get_optional_user emptyDB "secret" 0 { auth := TokenField.absent }) =
        Response.template "login.html" none [] :=
  C7_optional_resolver_anonymous emptyDB "secret" 0
    { auth := TokenField.absent } trivial

/-- C8: whenever the Required Identity Resolver yields an authenticated
user whose role differs from the required role, the Role Authorizer fails
with Forbidden — an outcome distinct from Unauthenticated — and the
surfaced response is a 403-equivalent, not a redirect to login. -/
theorem C8_role_mismatch_forbidden (db : DB) (key : String) (now : Nat)
    (req : Request) (u : User) (required : UserRole)
    (h : get_current_user db key now req = Except.ok u)
    (hr : u.role ≠ required) :
    require_role required db key now req = Except.error AuthError.Forbidden ∧
      AuthError.Forbidden ≠ AuthError.Unauthenticated ∧
      api_error_response AuthError.Forbidden = Response.status 403 ∧
      api_error_response AuthError.Forbidden ≠ Response.redirect "/login" 302 := by
  refine ⟨?_, by decide, rfl, by decide⟩
  simp [require_role, h, hr]

/-- C8 witness: the authorizer evaluated for the regular user `carol`
presenting a valid token to an ADMIN-gated operation. -/
theorem C8_role_mismatch_forbidden_witness :
    require_role UserRole.ADMIN carolDB "secret" 0 carolReq =
        Except.error AuthError.Forbidden ∧
      AuthError.Forbidden ≠ AuthError.Unauthenticated ∧
      api_error_response AuthError.Forbidden = Response.status 403 ∧
      api_error_response AuthError.Forbidden ≠ Response.redirect "/login" 302 :=
  C8_role_mismatch_forbidden carolDB "secret" 0 carolReq carol UserRole.ADMIN
    rfl (by decide)

/-- C9: an authenticated request to /login or /register is answered with a
302 redirect to /dashboard (no page render), and an anonymous request
renders the page (no redirect). -/
theorem C9_login_register_redirect_when_authenticated (u : User) :
    login_page (some u) = Response.redirect "/dashboard" 302 ∧
      register_page (some u) = Response.redirect "/dashboard" 302 ∧
      login_page none = Response.template "login.html" none [] ∧
      register_page none = Response.template "register.html" none [] :=
  ⟨rfl, rfl, rfl, rfl⟩

/-- C9 witness: the statement evaluated at the admin account. -/
theorem C9_login_register_redirect_when_authenticated_witness :
    login_page (some admin_account) = Response.redirect "/dashboard" 302 ∧
      register_page (some admin_account) = Response.redirect "/dashboard" 302 ∧
      login_page none = Response.template "login.html" none [] ∧
      register_page none = Response.template "register.html" none [] :=
  C9_login_register_redirect_when_authenticated admin_account

/-- C10: the root route never renders content: every anonymous request is
answered with a 302 redirect to /login and every authenticated one with a
302 redirect to /dashboard, for every database state and user. -/
theorem C10_root_always_redirects (db : DB) (u : User) :
    index db none = Response.redirect "/login" 302 ∧
      index db (some u) = Response.redirect "/dashboard" 302 :=
  ⟨rfl, rfl⟩

/-- C10 witness: the root route evaluated on the empty database for the
anonymous visitor and for the admin account. -/
theorem C10_root_always_redirects_witness :
    index emptyDB none = Response.redirect "/login" 302 ∧
      index emptyDB (some admin_account) = Response.redirect "/dashboard" 302 :=
  C10_root_always_redirects emptyDB admin_account

end WebHL
